import Mathlib

/-!
# Verification of the reolink-aio session, transport and mapping core

Shallow embedding of the parts of `reolink_aio/api.py`,
`reolink_aio/utils.py` and `reolink_aio/baichuan/baichuan.py` that the
verified properties are about.  Python dicts holding JSON data are
modelled by the `JVal` type below; machine time instants are modelled as
integer seconds; the aiohttp / asyncio network layer is modelled by
explicit "response script" parameters that list what the network returns
for each request actually performed.
-/

namespace Reolink

/-! ## JSON value model

A Python JSON value (the result of `json.loads`) is modelled as a tree.
Objects are association lists keyed by strings; the helpers model Python
subscripting (`d["k"]`, raising `KeyError` when absent, hence `Option`),
truthiness, `== n` comparison against an int literal, and dict item
assignment (`d["k"] = v`). -/

inductive JVal where
  | jnull : JVal
  | jbool : Bool → JVal
  | jint : Int → JVal
  | jstr : String → JVal
  | jarr : List JVal → JVal
  | jobj : List (String × JVal) → JVal
  deriving Inhabited

namespace JVal

/-- Models `d["k"]` on a JSON object: `none` models a raised `KeyError`
(or a `TypeError` when `d` is not a dict). -/
def get (v : JVal) (k : String) : Option JVal :=
  match v with
  | .jobj fields => fields.lookup k
  | _ => none

/-- Models `d.get("k", default)` on a JSON object (never raises). -/
def getd (v : JVal) (k : String) (dflt : JVal) : JVal :=
  match v with
  | .jobj fields =>
    match fields.lookup k with
    | some x => x
    | none => dflt
  | _ => dflt

/-- Python `x == n` for an int literal `n` (`True == 1` in Python). -/
def jeqInt (v : JVal) (n : Int) : Bool :=
  match v with
  | .jint m => m = n
  | .jbool b => (if b then (1 : Int) else 0) = n
  | _ => false

/-- Python truthiness of a JSON value. -/
def jtruthy (v : JVal) : Bool :=
  match v with
  | .jnull => false
  | .jbool b => b
  | .jint n => n ≠ 0
  | .jstr s => s ≠ ""
  | .jarr xs => !xs.isEmpty
  | .jobj fields => !fields.isEmpty

/-- Dict item assignment `d["k"] = x`: replaces the binding in place when
the key exists, appends it otherwise (Python dicts keep insertion order). -/
def objSet (v : JVal) (k : String) (x : JVal) : JVal :=
  match v with
  | .jobj fields =>
    if (fields.lookup k).isSome then
      .jobj (fields.map fun p => if p.1 = k then (k, x) else p)
    else
      .jobj (fields ++ [(k, x)])
  | other => other

end JVal

/-! ## `utils.py`: Reolink time dict ↔ Python `datetime`

`reolink_time_to_datetime` builds `datetime(year=t["year"], month=t["mon"],
day=t["day"], hour=t["hour"], minute=t["min"], second=t["sec"])`; the
`datetime` constructor raises `ValueError` on out-of-range components,
modelled by `Option`.  `datetime_to_reolink_time` (datetime branch) reads
the six components back; its string branch is modelled separately. -/

/-- A Reolink time-component dict: integer values under exactly the keys
`year/mon/day/hour/min/sec`. -/
structure ReolinkTime where
  year : Int
  mon : Int
  day : Int
  hour : Int
  min : Int
  sec : Int
  deriving Repr, DecidableEq

/-- The state of a Python `datetime` object (microsecond 0, tz dropped). -/
structure PyDatetime where
  year : Int
  month : Int
  day : Int
  hour : Int
  minute : Int
  second : Int
  deriving Repr, DecidableEq

/-- Gregorian leap year, as used by `datetime`. -/
def isLeapYear (y : Int) : Bool :=
  y % 4 = 0 && (y % 100 ≠ 0 || y % 400 = 0)

/-- Number of days in a month, as enforced by the `datetime` constructor. -/
def daysInMonth (y m : Int) : Int :=
  if m = 2 then (if isLeapYear y then 29 else 28)
  else if m = 4 ∨ m = 6 ∨ m = 9 ∨ m = 11 then 30
  else 31

/-- The `datetime(...)` constructor: `ValueError` (here `none`) unless all
components are in range (`MINYEAR = 1`, `MAXYEAR = 9999`). -/
def datetimeNew (y mo d h mi s : Int) : Option PyDatetime :=
  if 1 ≤ y ∧ y ≤ 9999 ∧ 1 ≤ mo ∧ mo ≤ 12 ∧ 1 ≤ d ∧ d ≤ daysInMonth y mo
      ∧ 0 ≤ h ∧ h ≤ 23 ∧ 0 ≤ mi ∧ mi ≤ 59 ∧ 0 ≤ s ∧ s ≤ 59 then
    some ⟨y, mo, d, h, mi, s⟩
  else
    none

/-- Models `utils.reolink_time_to_datetime` (tzinfo omitted: it does not affect
the stored components). -/
def reolink_time_to_datetime (t : ReolinkTime) : Option PyDatetime :=
  datetimeNew t.year t.mon t.day t.hour t.min t.sec

/-- Models `utils.datetime_to_reolink_time`, `datetime` input branch. -/
def datetime_to_reolink_time (time : PyDatetime) : ReolinkTime :=
  { year := time.year
    mon := time.month
    day := time.day
    hour := time.hour
    min := time.minute
    sec := time.second }

/-- Models `utils.datetime_to_reolink_time`, string input branch
(`int(time[0:4])` etc.; `none` models `ValueError` from `int()`). -/
def datetime_to_reolink_time_str (time : String) : Option ReolinkTime := do
  let y ← ((time.toList.take 4).asString).toInt?
  let mo ← ((time.toList.drop 4).take 2).asString.toInt?
  let d ← ((time.toList.drop 6).take 2).asString.toInt?
  let h ← ((time.toList.drop 8).take 2).asString.toInt?
  let mi ← ((time.toList.drop 10).take 2).asString.toInt?
  let s ← ((time.toList.drop 12).take 2).asString.toInt?
  pure ⟨y, mo, d, h, mi, s⟩

/-! ## HTTP session state (`Host` login/session fields)

`_token : Optional[str]` and `_lease_time : Optional[datetime]` of
`Host`.  Time instants are integer seconds; `datetime.now()` is passed in
explicitly as `now`. -/

structure Session where
  token : Option String
  leaseTime : Option Int
  deriving Repr, DecidableEq

/-- Models `Host.session_active` (api.py line 338): true iff the token and lease
are set and the lease expires more than 5 seconds from now. -/
def session_active (s : Session) (now : Int) : Bool :=
  match s.token, s.leaseTime with
  | some _, some lt => decide (lt > now + 5)
  | _, _ => false

/-- Models `Host.expire_session` (api.py line 659): if a lease is stored, force
it 5 seconds into the past; the token is left alone. -/
def expire_session (s : Session) (now : Int) : Session :=
  match s.leaseTime with
  | some _ => { s with leaseTime := some (now - 5) }
  | none => s

/-- Models `Host.clear_token` (api.py line 663). -/
def clear_token (_s : Session) : Session :=
  { token := none, leaseTime := none }

/-! ## HTTP send pipeline (`Host.send`, api.py lines 2619-2750)

The POST path (`body` a JSON list) is modelled; every JSON command goes
through it.  The network is a script (`List NetResp`): one entry per HTTP
request actually performed.  The ensure-session step (`if not await
self.login(): return None`, run on every invocation for commands other
than Login/Logout) is represented by the `loginOk` oracle; `Host.login`
itself is modelled separately below. -/

/-- What the network does for one HTTP request: a response, an
`aiohttp.ClientConnectorError`, or an `asyncio.TimeoutError`. -/
structure HttpResponse where
  status : Nat
  contentType : String
  dataLen : Nat
  /-- whether the body contains one of the three `"detail" : ...`
  invalid-login substrings checked at api.py line 2681 -/
  loginErrBody : Bool
  /-- result of `json.loads(data)`; `none` models a decode failure,
  `some .jnull` models a parsed JSON `null` -/
  json : Option JVal
  deriving Inhabited

inductive NetResp where
  | conn (x : HttpResponse)
  | connError
  | timeout
  deriving Inhabited

/-- The typed errors `Host.send` can raise. -/
inductive SendErr where
  | apiError
  | invalidContentType
  | credentialsInvalid
  | connError
  | timeoutError
  deriving Repr, DecidableEq

/-- What `Host.send` returns on success: Python `None`, a parsed JSON
value, or raw (non-JSON) data. -/
inductive SendRet where
  | retNone
  | retJson (j : JVal)
  | retRaw (dataLen : Nat)
  deriving Inhabited

def isLoginLogout (cmd : String) : Bool :=
  cmd == "Login" || cmd == "Logout"

/-- api.py lines 2677-2683: a small `text/html` body containing an
invalid-login detail substring, for a command other than Logout. -/
def htmlLoginErr (cmd : String) (x : HttpResponse) : Bool :=
  decide (x.dataLen < 500) && (x.contentType == "text/html")
    && x.loginErrBody && !(cmd == "Logout")

/-- api.py line 2698: expected content type set, not "json", and not
matching the actual content type. -/
def contentTypeMismatch (expect : Option String) (x : HttpResponse) : Bool :=
  !(expect == none || expect == some "json") && !(expect == some x.contentType)

/-- Outcome of classifying one received response: a final result (with
whether the session gets expired on this path) or a directive to expire
the session and transparently resend with `retry = True`. -/
inductive AttemptOut where
  | done (res : Except SendErr SendRet) (expire : Bool)
  | retryNeeded

/-- Classification of a single network outcome by `Host.send`, in source
order: invalid-login HTML check, content-type check, 502 check, HTTP
error-status check, JSON decoding.  Every raising path expires the
session (the `except` handlers at api.py lines 2723-2750). -/
def sendOnce (cmd : String) (expect : Option String) (retry : Bool) (r : NetResp) : AttemptOut :=
  match r with
  | .connError => .done (.error .connError) true
  | .timeout => .done (.error .timeoutError) true
  | .conn x =>
    if htmlLoginErr cmd x then
      if isLoginLogout cmd || retry then .done (.error .credentialsInvalid) true
      else .retryNeeded
    else if contentTypeMismatch expect x then
      .done (.error .invalidContentType) true
    else if x.status == 502 && !retry then
      .retryNeeded
    else if decide (400 ≤ x.status) || (isLoginLogout cmd && !(x.status == 200)) then
      .done (.error .apiError) true
    else if expect == some "json" then
      match x.json with
      | none => if retry then .done (.error .invalidContentType) true else .retryNeeded
      | some .jnull => .done (.ok .retNone) true
      | some j => .done (.ok (.retJson j)) false
    else
      .done (.ok (.retRaw x.dataLen)) false

structure SendResult where
  result : Except SendErr SendRet
  /-- the `token` query parameter of each HTTP request performed, in
  order; the length is the number of attempts -/
  requests : List (Option String)
  finalSess : Session

/-- Models `Host.send`: ensure-session step, token query parameter, one network
request, classification, and the single transparent retry (recursing with
`retry := true` after `expire_session`).  An error propagating out of the
recursive call passes through the outer `except` handlers, which expire
the session again.  An exhausted script is modelled as a connection
error. -/
def send (cmd : String) (expect : Option String) (loginOk : Bool) (now : Int) :
    List NetResp → Session → Bool → SendResult
  | script, sess, retry =>
    if !isLoginLogout cmd && !loginOk then
      ⟨.ok .retNone, [], sess⟩
    else
      let tokenParam : Option String := if cmd == "Login" then some "null" else sess.token
      match script with
      | [] => ⟨.error .connError, [tokenParam], expire_session sess now⟩
      | r :: rest =>
        match sendOnce cmd expect retry r with
        | .done res ex =>
          ⟨res, [tokenParam], if ex then expire_session sess now else sess⟩
        | .retryNeeded =>
          let sess1 := expire_session sess now
          let out := send cmd expect loginOk now rest sess1 true
          ⟨out.result, tokenParam :: out.requests,
            match out.result with
            | .error _ => expire_session out.finalSess now
            | .ok _ => out.finalSess⟩

/-- The two ways a JSON-expecting request can fail that trigger the
transparent retry: a 502 status, or a JSON-decode failure of a 200
response. -/
inductive JsonFailKind where
  | badGateway
  | decodeFail

/-- The typed error each failure kind surfaces as after the retry. -/
def JsonFailKind.typedErr : JsonFailKind → SendErr
  | .badGateway => .apiError
  | .decodeFail => .invalidContentType

/-- The network outcome `r` fails a JSON-expecting request in kind `k`
(and is not an invalid-login HTML body, which takes priority). -/
def jsonFailHyp (cmd : String) (k : JsonFailKind) (r : NetResp) : Prop :=
  match k with
  | .badGateway => ∃ x, r = .conn x ∧ htmlLoginErr cmd x = false ∧ x.status = 502
  | .decodeFail => ∃ x, r = .conn x ∧ htmlLoginErr cmd x = false ∧ x.status = 200 ∧ x.json = none

/-! ## Host state, constructor, logout and login
(`Host.__init__` / `Host.logout` / `Host.login`, api.py) -/

/-- The `Host` fields written by `__init__` that the verified operations
read: connection coordinates, stream preferences, and the login session
pair.  The per-channel caches live in `Cache` below. -/
structure HostState where
  host : String
  username : String
  password : String
  port : Option Nat
  useHttps : Option Bool
  protocolPref : String
  stream : String
  timeoutSecs : Int
  rtmpAuthMethod : String
  url : String
  token : Option String
  leaseTime : Option Int
  deriving Repr, DecidableEq

/-- Models `Host.__init__` (api.py lines 56-102): note line 92 stores
`password[:31]`.  The aiohttp session object and the remaining cache
fields (all initialised empty) are not modelled here. -/
def host_init (host username password : String) (port : Option Nat) (useHttps : Option Bool)
    (protocolPref stream : String) (timeoutSecs : Int) (rtmpAuthMethod : String) : HostState :=
  { host := host
    username := username
    password := password.take 31
    port := port
    useHttps := useHttps
    protocolPref := protocolPref
    stream := stream
    timeoutSecs := timeoutSecs
    rtmpAuthMethod := rtmpAuthMethod
    url := ""
    token := none
    leaseTime := none }

/-- Models `Host.refresh_base_url` (api.py line 529); a still-unset port prints
as Python `None` in the f-string. -/
def refresh_base_url (st : HostState) : HostState :=
  let p := match st.port with
    | some n => toString n
    | none => "None"
  match st.useHttps with
  | some true => { st with url := "https://" ++ st.host ++ ":" ++ p ++ "/cgi-bin/api.cgi" }
  | _ => { st with url := "http://" ++ st.host ++ ":" ++ p ++ "/cgi-bin/api.cgi" }

/-- Models `Host.enable_https` (api.py line 525). -/
def enable_https (st : HostState) (enable : Bool) : HostState :=
  refresh_base_url { st with useHttps := some enable }

def sessionOf (st : HostState) : Session :=
  ⟨st.token, st.leaseTime⟩

structure LogoutResult where
  /-- the exception the call propagates, if any -/
  raised : Option SendErr
  state : HostState
  /-- token parameter of each Logout HTTP request performed -/
  requests : List (Option String)
  deriving Repr, DecidableEq

/-- Models `Host.logout` (api.py lines 631-657).  When a truthy token is stored,
the Logout command is sent; `clear_token()` (line 652) runs only after a
non-raising send, since the `finally` block only releases the login
mutex.  Closing the aiohttp session (line 653) is not modelled.  The
`mutex_owned` flag has no observable effect in this sequential model. -/
def logout (st : HostState) (now : Int) (script : List NetResp) : LogoutResult :=
  match st.token with
  | some t =>
    if t == "" then
      ⟨none, { st with token := none, leaseTime := none }, []⟩
    else
      let out := send "Logout" none true now script (sessionOf st) false
      match out.result with
      | .error e =>
        ⟨some e, { st with token := out.finalSess.token, leaseTime := out.finalSess.leaseTime },
          out.requests⟩
      | .ok _ =>
        ⟨none, { st with token := none, leaseTime := none }, out.requests⟩
  | none =>
    ⟨none, { st with token := none, leaseTime := none }, []⟩

/-- Python `float(x)` on a JSON value, truncated to the integral values
the device sends for `leaseTime` (`none` models a raised `ValueError` /
`TypeError`). -/
def pyFloat (v : JVal) : Option Int :=
  match v with
  | .jint n => some n
  | .jbool b => some (if b then 1 else 0)
  | .jstr s => s.toInt?
  | _ => none

/-- Python `str(x)` on a JSON value (container reprs abbreviated; the
device returns a string token). -/
def pyStr (v : JVal) : String :=
  match v with
  | .jstr s => s
  | .jint n => toString n
  | .jbool b => if b then "True" else "False"
  | .jnull => "None"
  | .jarr _ => "<list>"
  | .jobj _ => "<dict>"

/-- Outcome of the response-parsing block of `Host.login`
(api.py lines 591-614). -/
inductive LoginParse where
  | success (tokenName : String) (leaseSecs : Int)
  | failedCode
  | exn

/-- Models `json_data[0]["code"] == 0`, then
`value.Token.leaseTime` / `value.Token.name` extraction; any lookup or
conversion failure is the caught inner exception (which clears the
token), a non-zero code falls through to the plain `return False`. -/
def login_parse (j : JVal) : LoginParse :=
  match j with
  | .jarr (d0 :: _) =>
    match d0.get "code" with
    | none => .exn
    | some c =>
      if c.jeqInt 0 then
        match (d0.get "value").bind (fun v => v.get "Token") with
        | none => .exn
        | some tk =>
          match (tk.get "leaseTime").bind pyFloat, tk.get "name" with
          | some lt, some nm => .success (pyStr nm) lt
          | _, _ => .exn
      else
        .failedCode
  | _ => .exn

structure LoginResult where
  /-- the exception the call propagates, if any -/
  raised : Option SendErr
  /-- the returned boolean (meaningful when `raised = none`) -/
  ok : Bool
  state : HostState
  /-- The pair `(command, token parameter)` of each HTTP request performed -/
  requests : List (String × Option String)
  deriving Repr, DecidableEq

/-- Network oracle for one `login()` body: the scripts consumed by the
logout-before-login send and by the Login send. -/
structure LoginNet where
  logoutScript : List NetResp
  loginScript : List NetResp
  deriving Inhabited

/-- The port-and-scheme-known body of `Host.login` (api.py lines
539-619): the 300-second short-circuit, the forced logout (whose
exceptions are not caught and propagate), the Login send, and response
parsing.  `ApiError`, `ClientConnectorError` and
`InvalidContentTypeError` from the send are caught and flipped into
`False`; other errors propagate. -/
def login_known (st : HostState) (now : Int) (net : LoginNet) : LoginResult :=
  let fresh : Bool :=
    match st.token, st.leaseTime with
    | some _, some lt => decide (now + 300 < lt)
    | _, _ => false
  if fresh then
    ⟨none, true, st, []⟩
  else
    let lo := logout st now net.logoutScript
    let loReqs := lo.requests.map (fun t => ("Logout", t))
    match lo.raised with
    | some e => ⟨some e, false, lo.state, loReqs⟩
    | none =>
      let st1 := lo.state
      let out := send "Login" (some "json") true now net.loginScript (sessionOf st1) false
      let reqs := loReqs ++ out.requests.map (fun t => ("Login", t))
      let stBack := { st1 with token := out.finalSess.token, leaseTime := out.finalSess.leaseTime }
      match out.result with
      | .error .apiError => ⟨none, false, stBack, reqs⟩
      | .error .connError => ⟨none, false, stBack, reqs⟩
      | .error .invalidContentType => ⟨none, false, stBack, reqs⟩
      | .error e => ⟨some e, false, stBack, reqs⟩
      | .ok .retNone => ⟨none, false, stBack, reqs⟩
      | .ok (.retRaw _) => ⟨none, false, stBack, reqs⟩
      | .ok (.retJson j) =>
        match login_parse j with
        | .success nm lt =>
          ⟨none, true, { st1 with token := some nm, leaseTime := some (now + lt) }, reqs⟩
        | .failedCode => ⟨none, false, stBack, reqs⟩
        | .exn => ⟨none, false, { st1 with token := none, leaseTime := none }, reqs⟩

/-- Models `Host._login_try_ports` (api.py lines 621-629): probe HTTPS:443 then
HTTP:80.  The recursive `self.login()` calls run with the port set and so
reduce to `login_known` (the source recursion unrolled once). -/
def login_try_ports (st : HostState) (now : Int) (netA netB : LoginNet) : LoginResult :=
  let stA := enable_https { st with port := some 443 } true
  let r1 := login_known stA now netA
  match r1.raised, r1.ok with
  | some _, _ => r1
  | none, true => r1
  | none, false =>
    let stB := enable_https { r1.state with port := some 80 } false
    let r2 := login_known stB now netB
    { r2 with requests := r1.requests ++ r2.requests }

/-- Models `Host.login` (api.py lines 535-619). -/
def login (st : HostState) (now : Int) (net netA netB : LoginNet) : LoginResult :=
  if st.port = none ∨ st.useHttps = none then
    login_try_ports st now netA netB
  else
    login_known st now net

/-! ## Per-channel response mapping
(`Host.map_channels_json_response` / `Host.map_channel_json_response`,
api.py lines 1515-1720)

`Cache` models the per-channel blocks written by the
GetEvents/GetMdState/GetAlarm/GetAiState branches; the remaining `elif`
branches write per-channel blocks outside this modelled cache and are
represented by the no-op fall-through.  Python dicts keyed by channel are
association lists.  A raised exception inside one element's `try` block
is caught and mapping continues with the next element, keeping whatever
writes happened before the raise; each branch below therefore sequences
its writes explicitly and stops (keeping partial writes) at the first
failing lookup. -/

/-- Python dict item assignment `d[k] = x` on an association list. -/
def dictSet {κ α : Type} [DecidableEq κ] (d : List (κ × α)) (k : κ) (x : α) : List (κ × α) :=
  if (d.lookup k).isSome then
    d.map fun p => if p.1 = k then (k, x) else p
  else
    d ++ [(k, x)]

/-- Models `d.get(k, dflt)` on a known dict's field list. -/
def fieldGetD (fields : List (String × JVal)) (k : String) (dflt : JVal) : JVal :=
  (fields.lookup k).getD dflt

structure Cache where
  alarm_settings : List (Nat × JVal)
  motion_detection_states : List (Nat × Bool)
  sensitivity_presets : List (Nat × JVal)
  ai_detection_states : List (Nat × List (String × Bool))
  ai_detection_support : List (Nat × List (String × Bool))
  visitor_states : List (Nat × Bool)
  is_doorbell_enabled : List (Nat × Bool)
  deriving Inhabited

/-- The `for key, value in data["value"]["ai"].items()` loop of the
GetEvents branch (api.py lines 1546-1549); a non-dict `value` raises
`AttributeError` on `.get`, aborting the element. -/
def aiItems (ch : Nat) (c : Cache) : List (String × JVal) → Cache × Bool
  | [] => (c, true)
  | (key, value) :: rest =>
    match value with
    | .jobj fs =>
      let supported := (fieldGetD fs "support" (.jint 0)).jeqInt 1
      let alarm := supported && (fieldGetD fs "alarm_state" (.jint 0)).jeqInt 1
      let states := dictSet ((c.ai_detection_states.lookup ch).getD []) key alarm
      let support := dictSet ((c.ai_detection_support.lookup ch).getD []) key supported
      let c := { c with
        ai_detection_states := dictSet c.ai_detection_states ch states
        ai_detection_support := dictSet c.ai_detection_support ch support }
      aiItems ch c rest
    | _ => (c, false)

/-- GetEvents branch (api.py lines 1538-1556). -/
def branchGetEvents (data : JVal) (channel : Nat) (c : Cache) : Cache :=
  match data.get "value" with
  | none => c
  | some v =>
    match v.get "channel" with
    | none => c
    | some rc =>
      if !(rc.jeqInt channel) then c
      else
        let step1 : Cache × Bool :=
          match v.get "ai" with
          | none => (c, true)
          | some ai =>
            let c := { c with
              ai_detection_states := dictSet c.ai_detection_states channel []
              ai_detection_support := dictSet c.ai_detection_support channel [] }
            match ai with
            | .jobj items => aiItems channel c items
            | _ => (c, false)
        match step1 with
        | (c, false) => c
        | (c, true) =>
          let step2 : Cache × Bool :=
            match v.get "md" with
            | none => (c, true)
            | some m =>
              match m.get "alarm_state" with
              | none => (c, false)
              | some a =>
                ({ c with motion_detection_states :=
                    dictSet c.motion_detection_states channel (a.jeqInt 1) }, true)
          match step2 with
          | (c, false) => c
          | (c, true) =>
            match v.get "visitor" with
            | none => c
            | some value =>
              match value with
              | .jobj fs =>
                let supported := (fieldGetD fs "support" (.jint 0)).jeqInt 1
                let alarm := supported && (fieldGetD fs "alarm_state" (.jint 0)).jeqInt 1
                { c with
                  visitor_states := dictSet c.visitor_states channel alarm
                  is_doorbell_enabled := dictSet c.is_doorbell_enabled channel supported }
              | _ => c

/-- GetMdState branch (api.py line 1558). -/
def branchGetMdState (data : JVal) (channel : Nat) (c : Cache) : Cache :=
  match (data.get "value").bind (fun v => v.get "state") with
  | none => c
  | some sv =>
    { c with motion_detection_states := dictSet c.motion_detection_states channel (sv.jeqInt 1) }

/-- GetAlarm branch (api.py lines 1561-1564); writes happen in source
order, so a failing later lookup keeps the earlier writes. -/
def branchGetAlarm (data : JVal) (channel : Nat) (c : Cache) : Cache :=
  match data.get "value" with
  | none => c
  | some v =>
    let c := { c with alarm_settings := dictSet c.alarm_settings channel v }
    match (v.get "Alarm").bind (fun al => al.get "enable") with
    | none => c
    | some en =>
      let mds := dictSet c.motion_detection_states channel (en.jeqInt 1)
      let c := { c with motion_detection_states := mds }
      match (v.get "Alarm").bind (fun al => al.get "sens") with
      | none => c
      | some sens =>
        { c with sensitivity_presets := dictSet c.sensitivity_presets channel sens }

/-- The `for key, value in data["value"].items()` loop of the GetAiState
branch (api.py lines 1574-1606); Python `bool` is an `int`, so `jbool`
takes the `isinstance(value, int)` branch. -/
def aiStateItems (ch : Nat) (c : Cache) : List (String × JVal) → Cache × Bool
  | [] => (c, true)
  | (key, value) :: rest =>
    if key == "channel" then aiStateItems ch c rest
    else
      match value with
      | .jint n =>
        let states := dictSet ((c.ai_detection_states.lookup ch).getD []) key (decide (n = 1))
        let support := dictSet ((c.ai_detection_support.lookup ch).getD []) key true
        let c := { c with
          ai_detection_states := dictSet c.ai_detection_states ch states
          ai_detection_support := dictSet c.ai_detection_support ch support }
        aiStateItems ch c rest
      | .jbool b =>
        let states := dictSet ((c.ai_detection_states.lookup ch).getD []) key b
        let support := dictSet ((c.ai_detection_support.lookup ch).getD []) key true
        let c := { c with
          ai_detection_states := dictSet c.ai_detection_states ch states
          ai_detection_support := dictSet c.ai_detection_support ch support }
        aiStateItems ch c rest
      | .jobj fs =>
        let supported := (fieldGetD fs "support" (.jint 0)).jeqInt 1
        let alarm := supported && (fieldGetD fs "alarm_state" (.jint 0)).jeqInt 1
        let states := dictSet ((c.ai_detection_states.lookup ch).getD []) key alarm
        let support := dictSet ((c.ai_detection_support.lookup ch).getD []) key supported
        let c := { c with
          ai_detection_states := dictSet c.ai_detection_states ch states
          ai_detection_support := dictSet c.ai_detection_support ch support }
        aiStateItems ch c rest
      | _ => (c, false)

/-- GetAiState branch (api.py lines 1566-1606): the two unconditional
dict resets happen before `data["value"]` is read, so they survive a
channel mismatch or a later failure. -/
def branchGetAiState (data : JVal) (channel : Nat) (c : Cache) : Cache :=
  let c := { c with
    ai_detection_states := dictSet c.ai_detection_states channel []
    ai_detection_support := dictSet c.ai_detection_support channel [] }
  match data.get "value" with
  | none => c
  | some v =>
    match v with
    | .jobj fields =>
      match fields.lookup "channel" with
      | some rc =>
        if !(rc.jeqInt channel) then c
        else (aiStateItems channel c fields).1
      | none => (aiStateItems channel c fields).1
    | _ => c

/-- One iteration of the per-element loop of
`Host.map_channel_json_response`: the soft-error skip at `code == 1`, the
command dispatch, and the catch-log-continue `except` around the whole
element.  Command branches writing blocks outside the modelled `Cache`
fall through as no-ops. -/
def mapElem (data : JVal) (channel : Nat) (c : Cache) : Cache :=
  match data.get "code" with
  | none => c
  | some code =>
    if code.jeqInt 1 then c
    else
      match data.get "cmd" with
      | some (.jstr s) =>
        if s == "GetEvents" then branchGetEvents data channel c
        else if s == "GetMdState" then branchGetMdState data channel c
        else if s == "GetAlarm" then branchGetAlarm data channel c
        else if s == "GetAiState" then branchGetAiState data channel c
        else c
      | some _ => c
      | none => c

/-- Models `Host.map_channel_json_response` (api.py line 1529). -/
def map_channel_json_response (json_data : List JVal) (channel : Nat) (c : Cache) : Cache :=
  json_data.foldl (fun acc d => mapElem d channel acc) c

/-- Models `Host.map_channels_json_response` (api.py lines 1515-1527): a
response array whose length differs from the channel list is logged and
discarded; otherwise each element is mapped against its channel. -/
def map_channels_json_response (c : Cache) (json_data : List JVal) (channels : List Nat) : Cache :=
  if json_data.length ≠ channels.length then c
  else
    (json_data.zip channels).foldl (fun acc p => map_channel_json_response [p.1] p.2 acc) c

/-! ## `Host.set_sensitivity` (api.py lines 2421-2448) -/

inductive SetSensErr where
  | invalidParameter
  | notSupported
  /-- a `KeyError`/`TypeError` escaping while building the body -/
  | keyError
  deriving Repr, DecidableEq

/-- The `for setting in body[0]["param"]["Alarm"]["sens"]` loop
(api.py lines 2444-2446): update `setting["sensitivity"]` to
`int(51 - value)` when `preset is None or preset == setting["id"]`;
`none` models a raised `KeyError`/`TypeError`.  Returns the `sens` array
of the SetAlarm body that gets sent. -/
def set_sensitivity_sens (value : Int) (preset : Option Int) : List JVal → Option (List JVal)
  | [] => some []
  | setting :: rest =>
    let matched : Option Bool :=
      match preset with
      | none => some true
      | some p =>
        match setting.get "id" with
        | none => none
        | some idv => some (idv.jeqInt p)
    match matched with
    | none => none
    | some b =>
      let upd : Option JVal :=
        if b then
          match setting with
          | .jobj _ => some (setting.objSet "sensitivity" (.jint (51 - value)))
          | _ => none
        else
          some setting
      match upd with
      | none => none
      | some e =>
        match set_sensitivity_sens value preset rest with
        | none => none
        | some out => some (e :: out)

/-- Models `Host.set_sensitivity`: parameter guards (connected channel, cached
truthy alarm settings), then the body construction.  The result is the
`Alarm.sens` array of the SetAlarm body passed to `send_setting`. -/
def set_sensitivity (channels : List Nat) (alarm_settings : List (Nat × JVal))
    (channel : Nat) (value : Int) (preset : Option Int) : Except SetSensErr (List JVal) :=
  if !(channels.contains channel) then
    .error .invalidParameter
  else
    match alarm_settings.lookup channel with
    | none => .error .notSupported
    | some a =>
      if !a.jtruthy then
        .error .notSupported
      else
        match (a.get "Alarm").bind (fun al => al.get "sens") with
        | none => .error .keyError
        | some sv =>
          match sv with
          | .jarr sens =>
            match set_sensitivity_sens value preset sens with
            | none => .error .keyError
            | some out => .ok out
          | _ => .error .keyError

/-- Whether the loop updates this entry: no preset given, or the entry's
`id` equals the given preset. -/
def sensMatches (preset : Option Int) (e : JVal) : Bool :=
  match preset with
  | none => true
  | some p =>
    match e.get "id" with
    | some idv => idv.jeqInt p
    | none => false

/-- The entry is a dict and, when a preset is given, carries an `id` —
what the loop needs to process it without raising. -/
def sensWellFormed (preset : Option Int) (e : JVal) : Bool :=
  (match e with
    | .jobj _ => true
    | _ => false)
  && (preset.isNone || (e.get "id").isSome)

/-! ## Baichuan transport (`baichuan/baichuan.py`)

The TCP connection and per-attempt outcome are scripted (`BcNet`), one
entry per connect/write/await attempt.  `baichuan/util.py`,
`baichuan/xmls.py`, `baichuan/tcp_protocol.py` and `exceptions.py` are
not part of the given sources; the pieces of them this model needs are
modelled from the spec and marked as such below. -/

/-- Models `RETRY_ATTEMPTS` (baichuan.py line 22). -/
def RETRY_ATTEMPTS : Int := 3

inductive BcEncType where
  | bc
  | aes
  deriving Repr, DecidableEq

/-- Modelled from the spec: the error classes live in `exceptions.py`,
which is not part of the given sources; per the spec (§4.6, §7) every
error `Baichuan.send` raises is a typed Reolink error, i.e. a
`ReolinkError` subclass, so this type enumerates exactly the errors the
`except ReolinkError` in `Baichuan.logout` catches. -/
inductive BcErr where
  | connectionError
  | timeoutError
  | invalidParameter
  | invalidContent
  | unexpectedData
  | reolinkErr
  deriving Repr, DecidableEq

/-- What the network does for one Baichuan attempt. -/
inductive BcNet where
  /-- Outcome where `create_connection` raises (timeout/reset/OS error): immediate
  `ReolinkConnectionError`, never retried -/
  | connectFail
  /-- a reply is received; `body` is the decrypted `rec_body`, and
  `xmlNonce` is what `_get_value_from_xml(body, "nonce")` would
  extract (scripting the ElementTree collaborator) -/
  | ok (body : String) (xmlNonce : Option String)
  /-- Outcome `asyncio.TimeoutError` during write/await: `ReolinkTimeoutError`,
  never retried -/
  | timeoutErr
  /-- Outcome `ConnectionResetError`/`OSError` during write/await: subject to
  the retry logic -/
  | connReset
  /-- Outcome where `_decrypt` raises (unknown encryption tag):
  `InvalidContentTypeError` -/
  | decryptFail
  deriving Repr, DecidableEq

structure BcState where
  username : String
  password : String
  loggedIn : Bool
  nonce : Option String
  userHash : Option String
  passwordHash : Option String
  aesKey : Option String
  transportOpen : Bool
  deriving Repr, DecidableEq

/-- Modelled from the spec: `md5_str_modern` lives in
`baichuan/util.py`, not part of the given sources; the spec (§4.5) fixes
it as the uppercase hex MD5 digest.  An executable injective placeholder
stands in for the digest — no verified property depends on its value. -/
def md5_str_modern (s : String) : String :=
  "MD5<" ++ s ++ ">"

/-- Modelled from the spec: `xmls.LOGIN_XML` (in `baichuan/xmls.py`, not
part of the given sources) formatted with the two hex digests (§4.6);
only its non-emptiness matters here. -/
def LOGIN_XML (userName password : String) : String :=
  "<LoginUser><userName>" ++ userName ++ "</userName><password>" ++ password
    ++ "</password></LoginUser>"

/-- Modelled from the spec: `xmls.LOGOUT_XML` formatted with the plain
username and password (baichuan.py line 252). -/
def LOGOUT_XML (userName password : String) : String :=
  "<LoginUser><userName>" ++ userName ++ "</userName><password>" ++ password
    ++ "</password></LoginUser>"

structure BcOk where
  body : String
  xmlNonce : Option String
  deriving Repr, DecidableEq

structure BcCoreResult where
  result : Except BcErr BcOk
  state : BcState
  /-- script entries consumed = network attempts performed -/
  consumed : Nat
  deriving Repr

/-- The transport part of `Baichuan.send` (baichuan.py lines 65-141)
after the ensure-login step: header/parameter checks, lazy
(re)connection, write + await with the
`if retry <= 0 or cmd_id == 2: raise` / resend logic (lines 122-126),
and decryption.  `retryDec` is the already-decremented `retry` value of
the current invocation; the resend recursion decrements again on entry,
as each source-level recursive call does.  An exhausted script is
modelled as a connection error. -/
def bc_send_core (st : BcState) (cmdId : Int) (body extension : String)
    (encType : BcEncType) (messageClass : String) :
    List BcNet → Int → BcCoreResult
  | script, retryDec =>
    let messLen := body.length + extension.length
    if !(messageClass == "1465") && !(messageClass == "1464") then
      ⟨.error .invalidParameter, st, 0⟩
    else if decide (0 < messLen) && (encType == .aes) && st.aesKey == none then
      ⟨.error .invalidParameter, st, 0⟩
    else
      match script with
      | [] => ⟨.error .connectionError, st, 0⟩
      | n :: rest =>
        if !st.transportOpen && n == .connectFail then
          ⟨.error .connectionError, st, 1⟩
        else
          let st := { st with transportOpen := true }
          match n with
          | .connectFail => ⟨.error .connectionError, st, 1⟩
          | .ok b nv => ⟨.ok ⟨b, nv⟩, st, 1⟩
          | .timeoutErr => ⟨.error .timeoutError, st, 1⟩
          | .decryptFail => ⟨.error .invalidContent, st, 1⟩
          | .connReset =>
            if decide (retryDec ≤ 0) || decide (cmdId = 2) then
              ⟨.error .connectionError, st, 1⟩
            else
              let r := bc_send_core st cmdId body extension encType messageClass rest
                (retryDec - 1)
              ⟨r.result, r.state, r.consumed + 1⟩

/-- Models `Baichuan._get_nonce` (baichuan.py lines 223-234): header-only
legacy-encrypted request, nonce extraction (assigned before the `None`
check, so a missing nonce is stored as `None` and then raised on), AES
key derivation as the first 16 characters of
`md5(nonce + "-" + password)`. -/
def bc_get_nonce (st : BcState) (script : List BcNet) :
    Except BcErr BcState × BcState × Nat :=
  let r := bc_send_core st 1 "" "" .bc "1465" script (RETRY_ATTEMPTS - 1)
  match r.result with
  | .error e => (.error e, r.state, r.consumed)
  | .ok m =>
    let st1 := { r.state with nonce := m.xmlNonce }
    match m.xmlNonce with
    | none => (.error .unexpectedData, st1, r.consumed)
    | some n =>
      let key := (md5_str_modern (n ++ "-" ++ st1.password)).take 16
      let st2 := { st1 with aesKey := some key }
      (.ok st2, st2, r.consumed)

/-- Models `Baichuan.login` (baichuan.py lines 236-246): nonce round trip, the
two hex digests, the legacy-encrypted login body, then
`logged_in = True`. -/
def bc_login (st : BcState) (script : List BcNet) :
    Except BcErr BcState × Nat :=
  match bc_get_nonce st script with
  | (.error e, _, consumed) => (.error e, consumed)
  | (.ok _, st1, consumed) =>
    match st1.nonce with
    | none => (.error .unexpectedData, consumed)
    | some n =>
      let st2 := { st1 with
        userHash := some (md5_str_modern (st1.username ++ n))
        passwordHash := some (md5_str_modern (st1.password ++ n)) }
      let xml := LOGIN_XML (md5_str_modern (st1.username ++ n))
        (md5_str_modern (st1.password ++ n))
      let r := bc_send_core st2 1 xml "" .bc "1464" (script.drop consumed)
        (RETRY_ATTEMPTS - 1)
      match r.result with
      | .error e => (.error e, consumed + r.consumed)
      | .ok _ => (.ok { r.state with loggedIn := true }, consumed + r.consumed)

structure BcSendResult where
  result : Except BcErr String
  state : BcState
  consumed : Nat
  deriving Repr

/-- Models `Baichuan.send` (baichuan.py lines 55-141): the ensure-login step for
`cmd_id > 2` when not logged in, then the transport core.  The
source-level resend recursion re-enters the full `send`, but its
ensure-login branch is dead there (the session was just ensured and
nothing inside `send` resets `_logged_in`), so the resend loop lives in
`bc_send_core`. -/
def bc_send (st : BcState) (cmdId : Int) (body extension : String)
    (encType : BcEncType) (messageClass : String) (script : List BcNet)
    (retry : Int) : BcSendResult :=
  let retryDec := retry - 1
  if !st.loggedIn && decide (2 < cmdId) then
    match bc_login st script with
    | (.error e, consumed) => ⟨.error e, st, consumed⟩
    | (.ok st1, consumed) =>
      let r := bc_send_core st1 cmdId body extension encType messageClass
        (script.drop consumed) retryDec
      ⟨r.result.map (fun m => m.body), r.state, consumed + r.consumed⟩
  else
    let r := bc_send_core st cmdId body extension encType messageClass script retryDec
    ⟨r.result.map (fun m => m.body), r.state, r.consumed⟩

/-- Models `Baichuan.logout` (baichuan.py lines 248-269): when a transport
exists, a best-effort logout send whose `ReolinkError` failures are only
logged, a close whose `ConnectionResetError` is only logged
(`closeReset` scripts it; `tcp_protocol.py` is not in the given sources
and the spec says close is unconditional), then the unconditional
teardown of `_logged_in`, transport, nonce, AES key and both hashes. -/
def bc_logout (st : BcState) (script : List BcNet) (closeReset : Bool) : BcState :=
  let st1 :=
    if st.transportOpen then
      let r := bc_send st 2 (LOGOUT_XML st.username st.password) "" .aes "1464" script
        RETRY_ATTEMPTS
      let _ := closeReset
      r.state
    else
      st
  { st1 with
    loggedIn := false
    transportOpen := false
    nonce := none
    aesKey := none
    userHash := none
    passwordHash := none }

/-! ## Verified properties -/

/-- C7: `session_active` is true iff the token is non-null, the lease
expiry is non-null, and the lease expiry lies more than 5 seconds after
the current time. -/
theorem session_active_iff (s : Session) (now : Int) :
    session_active s now = true ↔
      s.token.isSome = true ∧ ∃ lt, s.leaseTime = some lt ∧ now + 5 < lt := by
  cases htk : s.token <;> cases hlt : s.leaseTime <;>
    simp [session_active, htk, hlt]

/-- C8: for every time-component dict that forms a valid calendar date
and time (so that the `datetime` constructor does not raise),
`datetime_to_reolink_time (reolink_time_to_datetime t) = t`. -/
theorem reolink_time_roundtrip (t : ReolinkTime) (dt : PyDatetime)
    (h : reolink_time_to_datetime t = some dt) :
    datetime_to_reolink_time dt = t := by
  cases t
  unfold reolink_time_to_datetime datetimeNew at h
  split at h
  · cases h
    rfl
  · cases h

/-- Witness for C8 at a concrete leap-day input. -/
theorem reolink_time_roundtrip_witness :
    reolink_time_to_datetime ⟨2024, 2, 29, 23, 59, 59⟩ = some ⟨2024, 2, 29, 23, 59, 59⟩ ∧
      datetime_to_reolink_time ⟨2024, 2, 29, 23, 59, 59⟩ = ⟨2024, 2, 29, 23, 59, 59⟩ :=
  ⟨by decide, reolink_time_roundtrip ⟨2024, 2, 29, 23, 59, 59⟩ _ (by decide)⟩

/-- C2: a response array whose length differs from the channel list it
is mapped against is discarded whole: the per-channel cache comes back
exactly as it went in. -/
theorem map_channels_length_mismatch (c : Cache) (json_data : List JVal)
    (channels : List Nat) (h : json_data.length ≠ channels.length) :
    map_channels_json_response c json_data channels = c := by
  simp [map_channels_json_response, h]

/-- Witness for C2: two responses against one channel leave a non-empty
cache untouched. -/
theorem map_channels_length_mismatch_witness :
    ([JVal.jobj [("code", .jint 0)], JVal.jobj [("code", .jint 0)]].length ≠ [0].length) ∧
      map_channels_json_response
        ⟨[(0, .jobj [("k", .jint 1)])], [(0, true)], [], [], [], [], []⟩
        [JVal.jobj [("code", .jint 0)], JVal.jobj [("code", .jint 0)]] [0] =
        ⟨[(0, .jobj [("k", .jint 1)])], [(0, true)], [], [], [], [], []⟩ :=
  ⟨by decide, map_channels_length_mismatch _ _ _ (by decide)⟩

/-- C6: after `Baichuan.logout`, the AES key, nonce and both hashes are
`None` and `_logged_in` is false, whatever the logout send and the
transport close did. -/
theorem bc_logout_clears (st : BcState) (script : List BcNet) (closeReset : Bool) :
    (bc_logout st script closeReset).aesKey = none ∧
      (bc_logout st script closeReset).nonce = none ∧
      (bc_logout st script closeReset).userHash = none ∧
      (bc_logout st script closeReset).passwordHash = none ∧
      (bc_logout st script closeReset).loggedIn = false :=
  ⟨rfl, rfl, rfl, rfl, rfl⟩

/-- C10: the constructor stores only the first 31 password characters,
and two passwords agreeing on those 31 characters produce identical host
states — hence identical behaviour of every operation (all of which are
functions of the state), exemplified by `login`. -/
theorem host_init_password_truncated (host username p1 p2 : String) (port : Option Nat)
    (useHttps : Option Bool) (protocolPref stream : String) (timeoutSecs : Int)
    (rtmpAuthMethod : String) (now : Int) (net netA netB : LoginNet)
    (h : p1.take 31 = p2.take 31) :
    host_init host username p1 port useHttps protocolPref stream timeoutSecs rtmpAuthMethod =
        host_init host username p2 port useHttps protocolPref stream timeoutSecs rtmpAuthMethod ∧
      (host_init host username p1 port useHttps protocolPref stream timeoutSecs
        rtmpAuthMethod).password = p1.take 31 ∧
      login (host_init host username p1 port useHttps protocolPref stream timeoutSecs
          rtmpAuthMethod) now net netA netB =
        login (host_init host username p2 port useHttps protocolPref stream timeoutSecs
          rtmpAuthMethod) now net netA netB := by
  refine ⟨?_, by simp [host_init], ?_⟩
  · simp [host_init, h]
  · simp [host_init, h]

set_option maxRecDepth 8192 in
/-- Witness for C10: two 35-character passwords agreeing on their first
31 characters. -/
theorem host_init_password_truncated_witness :
    ("0123456789012345678901234567890AAAA").take 31 =
        ("0123456789012345678901234567890BBBB").take 31 ∧
      host_init "cam" "admin" "0123456789012345678901234567890AAAA" (some 443) (some true)
          "rtmp" "main" 60 "PASSWORD" =
        host_init "cam" "admin" "0123456789012345678901234567890BBBB" (some 443) (some true)
          "rtmp" "main" 60 "PASSWORD" :=
  ⟨by decide,
    (host_init_password_truncated "cam" "admin" _ _ (some 443) (some true) "rtmp" "main" 60
      "PASSWORD" 0 ⟨[], []⟩ ⟨[], []⟩ ⟨[], []⟩ (by decide)).1⟩

/-- C3: with port and scheme known, a stored token and a lease expiring
more than 300 seconds from now, `login()` returns `True` immediately: no
logout, no network login request, token and lease untouched. -/
theorem login_short_circuit (st : HostState) (now : Int) (net netA netB : LoginNet)
    (p : Nat) (b : Bool) (tk : String) (lt : Int)
    (hp : st.port = some p) (hs : st.useHttps = some b)
    (htk : st.token = some tk) (hlt : st.leaseTime = some lt)
    (hfresh : now + 300 < lt) :
    login st now net netA netB = ⟨none, true, st, []⟩ := by
  unfold login
  rw [if_neg (by simp [hp, hs])]
  unfold login_known
  rw [htk, hlt]
  simp [hfresh]

/-- Witness for C3 at a concrete fresh session. -/
theorem login_short_circuit_witness :
    login ⟨"cam", "admin", "pw", some 443, some true, "rtmp", "main", 60, "PASSWORD", "",
        some "tok", some 1000⟩ 0 ⟨[], []⟩ ⟨[], []⟩ ⟨[], []⟩ =
      ⟨none, true, ⟨"cam", "admin", "pw", some 443, some true, "rtmp", "main", 60, "PASSWORD",
        "", some "tok", some 1000⟩, []⟩ :=
  login_short_circuit _ 0 _ _ _ 443 true "tok" 1000 rfl rfl rfl rfl (by decide)

/-- Counterexample to C4 as stated: when the Logout network request
raises (here a connection error), `clear_token()` at api.py line 652 is
skipped — the `finally` block only releases the mutex — so the stored
token survives the call. -/
theorem logout_counterexample :
    (logout ⟨"cam", "admin", "pw", some 443, some true, "rtmp", "main", 60, "PASSWORD", "",
        some "tok", some 1000⟩ 0 [NetResp.connError]).raised = some SendErr.connError ∧
      (logout ⟨"cam", "admin", "pw", some 443, some true, "rtmp", "main", 60, "PASSWORD", "",
        some "tok", some 1000⟩ 0 [NetResp.connError]).state.token = some "tok" :=
  ⟨rfl, rfl⟩

/-- C4 amended: every `logout()` call that does not propagate a network
exception clears the stored token and lease expiry. -/
theorem logout_clears_when_no_raise (st : HostState) (now : Int) (script : List NetResp)
    (h : (logout st now script).raised = none) :
    (logout st now script).state.token = none ∧
      (logout st now script).state.leaseTime = none := by
  unfold logout at h ⊢
  cases htk : st.token with
  | none => simp
  | some t =>
    by_cases he : (t == "") = true
    · simp [he]
    · cases hres : (send "Logout" none true now script (sessionOf st) false).result with
      | error e => simp [htk, he, hres] at h
      | ok v => simp [he, hres]

/-- Witness for C4 (amended) on a successful Logout round trip. -/
theorem logout_clears_when_no_raise_witness :
    (logout ⟨"cam", "admin", "pw", some 443, some true, "rtmp", "main", 60, "PASSWORD", "",
        some "tok", some 1000⟩ 0
        [NetResp.conn ⟨200, "text/html", 100, false, none⟩]).raised = none ∧
      (logout ⟨"cam", "admin", "pw", some 443, some true, "rtmp", "main", 60, "PASSWORD", "",
        some "tok", some 1000⟩ 0
        [NetResp.conn ⟨200, "text/html", 100, false, none⟩]).state.token = none ∧
      (logout ⟨"cam", "admin", "pw", some 443, some true, "rtmp", "main", 60, "PASSWORD", "",
        some "tok", some 1000⟩ 0
        [NetResp.conn ⟨200, "text/html", 100, false, none⟩]).state.leaseTime = none :=
  ⟨rfl,
    (logout_clears_when_no_raise
      ⟨"cam", "admin", "pw", some 443, some true, "rtmp", "main", 60, "PASSWORD", "",
        some "tok", some 1000⟩ 0
      [NetResp.conn ⟨200, "text/html", 100, false, none⟩] rfl).1,
    (logout_clears_when_no_raise
      ⟨"cam", "admin", "pw", some 443, some true, "rtmp", "main", 60, "PASSWORD", "",
        some "tok", some 1000⟩ 0
      [NetResp.conn ⟨200, "text/html", 100, false, none⟩] rfl).2⟩

/-- Counterexample to C5 as stated: with the default
`RETRY_ATTEMPTS = 3`, a non-logout command whose write/await step keeps
failing with a connection reset is attempted three times — a second
retry happens — before the connection error is raised. -/
theorem bc_send_counterexample :
    (bc_send ⟨"admin", "pw", true, none, none, none, none, true⟩ 3 "" "" .aes "1464"
        [.connReset, .connReset, .connReset] RETRY_ATTEMPTS).consumed = 3 ∧
      (bc_send ⟨"admin", "pw", true, none, none, none, none, true⟩ 3 "" "" .aes "1464"
        [.connReset, .connReset, .connReset] RETRY_ATTEMPTS).consumed ≠ 2 ∧
      (bc_send ⟨"admin", "pw", true, none, none, none, none, true⟩ 3 "" "" .aes "1464"
        [.connReset, .connReset, .connReset] RETRY_ATTEMPTS).result =
        .error .connectionError :=
  ⟨rfl, by decide, rfl⟩

/-- C5 amended: with the default `RETRY_ATTEMPTS = 3`, a persistent
reset/OSError during write/await is retried up to twice, so the
connection error surfaces after the third attempt — except for
`cmd_id == 2` (logout), which raises after the first attempt with no
retry. -/
theorem bc_send_retry_behavior (st : BcState) (cmdId : Int) (rest : List BcNet)
    (h : st.loggedIn = true) :
    (bc_send st cmdId "" "" .aes "1464" (.connReset :: .connReset :: .connReset :: rest)
        RETRY_ATTEMPTS).result = .error .connectionError ∧
      (bc_send st cmdId "" "" .aes "1464" (.connReset :: .connReset :: .connReset :: rest)
        RETRY_ATTEMPTS).consumed = (if cmdId = 2 then 1 else 3) := by
  by_cases h2 : cmdId = 2 <;>
    simp [bc_send, bc_send_core, h, h2, RETRY_ATTEMPTS, Except.map]

/-- Witness for C5 (amended) at the logout command `cmd_id = 2`. -/
theorem bc_send_retry_behavior_witness :
    (bc_send ⟨"admin", "pw", true, none, none, none, none, true⟩ 2 "" "" .aes "1464"
        [.connReset, .connReset, .connReset] RETRY_ATTEMPTS).result =
        .error .connectionError ∧
      (bc_send ⟨"admin", "pw", true, none, none, none, none, true⟩ 2 "" "" .aes "1464"
        [.connReset, .connReset, .connReset] RETRY_ATTEMPTS).consumed = 1 :=
  bc_send_retry_behavior ⟨"admin", "pw", true, none, none, none, none, true⟩ 2 [] rfl

theorem expire_session_idem (s : Session) (now : Int) :
    expire_session (expire_session s now) now = expire_session s now := by
  cases h : s.leaseTime <;> simp [expire_session, h]

/-- C1: a JSON-expecting send whose response 502s or fails to decode is
transparently retried exactly once after expiring the session; when the
retry fails the same way the matching typed error (`ApiError` for 502,
`InvalidContentTypeError` for a decode failure) is raised after exactly
two HTTP requests, however many more network responses are available. -/
theorem send_json_retries_once (cmd : String) (k : JsonFailKind) (r1 r2 : NetResp)
    (rest : List NetResp) (sess : Session) (now : Int)
    (h1 : jsonFailHyp cmd k r1) (h2 : jsonFailHyp cmd k r2) :
    (send cmd (some "json") true now (r1 :: r2 :: rest) sess false).result =
        .error k.typedErr ∧
      (send cmd (some "json") true now (r1 :: r2 :: rest) sess false).requests.length = 2 ∧
      (send cmd (some "json") true now (r1 :: r2 :: rest) sess false).finalSess =
        expire_session sess now := by
  cases k with
  | badGateway =>
    obtain ⟨x1, rfl, hh1, hs1⟩ := h1
    obtain ⟨x2, rfl, hh2, hs2⟩ := h2
    simp +decide [send, sendOnce, contentTypeMismatch, hh1, hh2, hs1, hs2,
      JsonFailKind.typedErr, expire_session_idem]
  | decodeFail =>
    obtain ⟨x1, rfl, hh1, hs1, hj1⟩ := h1
    obtain ⟨x2, rfl, hh2, hs2, hj2⟩ := h2
    simp +decide [send, sendOnce, contentTypeMismatch, hh1, hh2, hs1, hs2, hj1, hj2,
      JsonFailKind.typedErr, expire_session_idem]

/-- Witness for C1: two consecutive 502 responses surface as `ApiError`
after exactly two attempts, with the session expired. -/
theorem send_json_retries_once_witness :
    jsonFailHyp "GetAbility" .badGateway (.conn ⟨502, "text/html", 600, false, none⟩) ∧
      (send "GetAbility" (some "json") true 0
          (.conn ⟨502, "text/html", 600, false, none⟩ ::
            .conn ⟨502, "text/html", 600, false, none⟩ ::
            [.conn ⟨502, "text/html", 600, false, none⟩])
          ⟨some "tok", some 1000⟩ false).result = .error .apiError ∧
      (send "GetAbility" (some "json") true 0
          (.conn ⟨502, "text/html", 600, false, none⟩ ::
            .conn ⟨502, "text/html", 600, false, none⟩ ::
            [.conn ⟨502, "text/html", 600, false, none⟩])
          ⟨some "tok", some 1000⟩ false).requests.length = 2 ∧
      (send "GetAbility" (some "json") true 0
          (.conn ⟨502, "text/html", 600, false, none⟩ ::
            .conn ⟨502, "text/html", 600, false, none⟩ ::
            [.conn ⟨502, "text/html", 600, false, none⟩])
          ⟨some "tok", some 1000⟩ false).finalSess =
        expire_session ⟨some "tok", some 1000⟩ 0 :=
  ⟨⟨⟨502, "text/html", 600, false, none⟩, rfl, rfl, rfl⟩,
    (send_json_retries_once "GetAbility" .badGateway _ _ _ ⟨some "tok", some 1000⟩ 0
      ⟨⟨502, "text/html", 600, false, none⟩, rfl, rfl, rfl⟩
      ⟨⟨502, "text/html", 600, false, none⟩, rfl, rfl, rfl⟩).1,
    (send_json_retries_once "GetAbility" .badGateway _ _ _ ⟨some "tok", some 1000⟩ 0
      ⟨⟨502, "text/html", 600, false, none⟩, rfl, rfl, rfl⟩
      ⟨⟨502, "text/html", 600, false, none⟩, rfl, rfl, rfl⟩).2.1,
    (send_json_retries_once "GetAbility" .badGateway _ _ _ ⟨some "tok", some 1000⟩ 0
      ⟨⟨502, "text/html", 600, false, none⟩, rfl, rfl, rfl⟩
      ⟨⟨502, "text/html", 600, false, none⟩, rfl, rfl, rfl⟩).2.2⟩

theorem lookup_map_set (fs : List (String × JVal)) (k : String) (x : JVal)
    (h : (fs.lookup k).isSome = true) :
    (fs.map fun p => if p.1 = k then (k, x) else p).lookup k = some x := by
  induction fs with
  | nil => simp at h
  | cons a t ih =>
    obtain ⟨a1, a2⟩ := a
    by_cases hak : a1 = k
    · subst hak
      simp
    · have hk : (k == a1) = false := by
        cases hkb : (k == a1)
        · rfl
        · exact absurd (Ne.symm hak) (by simpa using hkb)
      rw [List.lookup_cons, hk] at h
      simp only [List.map_cons, if_neg (by simpa using hak)]
      rw [List.lookup_cons, hk]
      exact ih h

theorem lookup_append_set (fs : List (String × JVal)) (k : String) (x : JVal)
    (h : (fs.lookup k).isSome = false) :
    (fs ++ [(k, x)]).lookup k = some x := by
  induction fs with
  | nil => simp
  | cons a t ih =>
    obtain ⟨a1, a2⟩ := a
    rw [List.lookup_cons] at h
    cases hk : (k == a1) with
    | true => rw [hk] at h; simp at h
    | false =>
      rw [hk] at h
      rw [List.cons_append, List.lookup_cons, hk]
      exact ih h

theorem objSet_get_self (fs : List (String × JVal)) (k : String) (x : JVal) :
    (JVal.objSet (.jobj fs) k x).get k = some x := by
  show (if (fs.lookup k).isSome then
      JVal.jobj (fs.map fun p => if p.1 = k then (k, x) else p)
    else .jobj (fs ++ [(k, x)])).get k = some x
  cases h : (fs.lookup k).isSome with
  | true => simpa [h, JVal.get] using lookup_map_set fs k x h
  | false => simpa [h, JVal.get] using lookup_append_set fs k x h

/-- The per-entry relation established by the sensitivity loop: matched
entries carry `sensitivity = 51 - value` in the sent body, unmatched
entries are passed through unchanged. -/
def sensRel (value : Int) (preset : Option Int) (e e2 : JVal) : Prop :=
  (sensMatches preset e = true → e2.get "sensitivity" = some (.jint (51 - value))) ∧
    (sensMatches preset e = false → e2 = e)

theorem set_sensitivity_sens_spec (value : Int) (preset : Option Int) :
    ∀ sens : List JVal, sens.all (sensWellFormed preset) = true →
      ∃ out, set_sensitivity_sens value preset sens = some out ∧
        List.Forall₂ (sensRel value preset) sens out := by
  intro sens
  induction sens with
  | nil => exact fun _ => ⟨[], rfl, .nil⟩
  | cons e t ih =>
    intro hall
    rw [List.all_cons, Bool.and_eq_true] at hall
    obtain ⟨he, ht⟩ := hall
    obtain ⟨out, hout, hrel⟩ := ih ht
    cases e with
    | jobj fs =>
      cases preset with
      | none =>
        refine ⟨(JVal.jobj fs).objSet "sensitivity" (.jint (51 - value)) :: out, ?_, ?_⟩
        · simp [set_sensitivity_sens, hout]
        · refine .cons ⟨fun _ => objSet_get_self fs "sensitivity" _, fun hm => ?_⟩ hrel
          simp [sensMatches] at hm
      | some p =>
        have hid : ((JVal.jobj fs).get "id").isSome = true := by
          simpa [sensWellFormed] using he
        obtain ⟨idv, hidv⟩ := Option.isSome_iff_exists.mp hid
        by_cases hb : idv.jeqInt p = true
        · refine ⟨(JVal.jobj fs).objSet "sensitivity" (.jint (51 - value)) :: out, ?_, ?_⟩
          · simp [set_sensitivity_sens, hidv, hb, hout]
          · refine .cons ⟨fun _ => objSet_get_self fs "sensitivity" _, fun hm => ?_⟩ hrel
            simp [sensMatches, hidv, hb] at hm
        · have hbf : idv.jeqInt p = false := by
            cases hbb : idv.jeqInt p
            · rfl
            · exact absurd hbb hb
          refine ⟨.jobj fs :: out, ?_, ?_⟩
          · simp [set_sensitivity_sens, hidv, hbf, hout]
          · refine .cons ⟨fun hm => ?_, fun _ => rfl⟩ hrel
            simp [sensMatches, hidv, hbf] at hm
    | jnull => simp [sensWellFormed] at he
    | jbool b => simp [sensWellFormed] at he
    | jint n => simp [sensWellFormed] at he
    | jstr s => simp [sensWellFormed] at he
    | jarr xs => simp [sensWellFormed] at he

/-- C9: for a connected channel with cached, well-formed alarm settings,
the SetAlarm body built by `set_sensitivity` carries `51 - value` as the
sensitivity of every entry the preset selects (all of them when no
preset is given) and passes every other entry through with its cached
sensitivity unchanged. -/
theorem set_sensitivity_preset_spec (channels : List Nat)
    (alarm_settings : List (Nat × JVal)) (channel : Nat) (value : Int)
    (preset : Option Int) (a : JVal) (sens : List JVal)
    (hch : channels.contains channel = true)
    (ha : alarm_settings.lookup channel = some a)
    (htr : a.jtruthy = true)
    (hs : (a.get "Alarm").bind (fun al => al.get "sens") = some (.jarr sens))
    (hwf : sens.all (sensWellFormed preset) = true) :
    ∃ out, set_sensitivity channels alarm_settings channel value preset = .ok out ∧
      List.Forall₂ (sensRel value preset) sens out := by
  obtain ⟨out, hout, hrel⟩ := set_sensitivity_sens_spec value preset sens hwf
  refine ⟨out, ?_, hrel⟩
  simp [set_sensitivity, hch, ha, htr, hs, hout]
  simpa using hch

/-- Witness for C9: preset 1 of two cached presets is rewritten to
`51 - 5 = 46`, preset 0 keeps its cached sensitivity 30. -/
theorem set_sensitivity_preset_spec_witness :
    ([0] : List Nat).contains 0 = true ∧
      ([(0, JVal.jobj [("Alarm", .jobj [("sens",
          .jarr [.jobj [("id", .jint 0), ("sensitivity", .jint 30)],
            .jobj [("id", .jint 1), ("sensitivity", .jint 30)]])])])] :
        List (Nat × JVal)).lookup 0 =
        some (JVal.jobj [("Alarm", .jobj [("sens",
          .jarr [.jobj [("id", .jint 0), ("sensitivity", .jint 30)],
            .jobj [("id", .jint 1), ("sensitivity", .jint 30)]])])]) ∧
      (∃ out,
        set_sensitivity [0]
            [(0, JVal.jobj [("Alarm", .jobj [("sens",
              .jarr [.jobj [("id", .jint 0), ("sensitivity", .jint 30)],
                .jobj [("id", .jint 1), ("sensitivity", .jint 30)]])])])]
            0 5 (some 1) = .ok out ∧
          List.Forall₂ (sensRel 5 (some 1))
            [.jobj [("id", .jint 0), ("sensitivity", .jint 30)],
              .jobj [("id", .jint 1), ("sensitivity", .jint 30)]] out) :=
  ⟨rfl, rfl,
    set_sensitivity_preset_spec [0] _ 0 5 (some 1) _ _ rfl rfl rfl rfl rfl⟩

end Reolink
